import Mathlib

/-!
Verification of the dev-mcp policy-gated database access layer.

This file gives a shallow embedding of `internal/database/sql_validator.go`
and `internal/database/enhanced.go` (together with the `EnhancedDB.Query`
wrapper from the database interface file) and proves the claimed
properties about them.

Conventions of the embedding:
  * SQL text is handled as `List Char`; Go's byte/rune handling agrees with
    this for the ASCII inputs the validator patterns are written in.
    Case mapping (`strings.ToUpper`) is modelled on the ASCII range.
  * The Go regexps of the validator are small, fixed patterns; each is
    embedded as an executable scanning function with the same matching
    semantics (RE2: `.` does not match a newline, `$` anchors at end of
    text, `\s` is the ASCII class, `ReplaceAll` replaces leftmost
    non-overlapping matches).
  * Network effects (driver open, ping, query execution, handle close) are
    modelled by an explicit event trace, with outcomes of the fallible
    calls passed in as oracle parameters.
  * The buffered stop channel (capacity 1) of the reconnection loop is
    modelled by a pending-signal counter plus a loop-alive flag; a send
    that would block forever is represented by `none`.
-/

namespace DevMcp

/-- Upper-casing of a character as `strings.ToUpper` acts on the ASCII range. -/
def goUpperChar (c : Char) : Char :=
  if 97 ≤ c.toNat ∧ c.toNat ≤ 122 then Char.ofNat (c.toNat - 32) else c

/-- Whitespace test of Go `unicode.IsSpace` (the White_Space code points). -/
def isGoSpace (c : Char) : Bool :=
  [9, 10, 11, 12, 13, 32, 133, 160, 0x1680, 0x2000, 0x2001, 0x2002, 0x2003,
   0x2004, 0x2005, 0x2006, 0x2007, 0x2008, 0x2009, 0x200A, 0x2028, 0x2029,
   0x202F, 0x205F, 0x3000].contains c.toNat

/-- Whitespace class of the RE2 escape `\s`: tab, newline, form feed, carriage return, space. -/
def isRegexSpace (c : Char) : Bool :=
  [9, 10, 12, 13, 32].contains c.toNat

/-- Leading and trailing whitespace removal, as `strings.TrimSpace`. -/
def trimSpace (l : List Char) : List Char :=
  ((l.dropWhile isGoSpace).reverse.dropWhile isGoSpace).reverse

/-- Test that the first list starts with the second. -/
def startsW : List Char → List Char → Bool
  | _, [] => true
  | [], _ :: _ => false
  | c :: cs, p :: ps => c == p && startsW cs ps

/-- Substring test: does the pattern occur somewhere in the text. -/
def containsSub : List Char → List Char → Bool
  | [], p => p.isEmpty
  | c :: r, p => startsW (c :: r) p || containsSub r p

/-- Accumulating helper for `goFields`. -/
def goFieldsAux : List Char → List Char → List (List Char)
  | cur, [] => if cur.isEmpty then [] else [cur.reverse]
  | cur, c :: rest =>
    if isGoSpace c then
      if cur.isEmpty then goFieldsAux [] rest
      else cur.reverse :: goFieldsAux [] rest
    else goFieldsAux (c :: cur) rest

/-- Whitespace-separated fields of a string, as `strings.Fields`. -/
def goFields (l : List Char) : List (List Char) :=
  goFieldsAux [] l

/-- Replacement of the Go regexp `--.*$` by the empty string: a match starts
at a `--` after which no newline occurs (RE2 `.` excludes the newline and `$`
anchors at end of text) and extends to the end of the text; scanning is
leftmost. -/
def stripLineComment : List Char → List Char
  | [] => []
  | c :: rest =>
    if c = '-' ∧ rest.head? = some '-' ∧ rest.all (fun x => x != '\n') then []
    else c :: stripLineComment rest

/-- Scan for the closing `*/` of a block comment within the current line
(RE2 `.` does not cross a newline); returns the remainder after the closer. -/
def findBlockEnd : List Char → Option (List Char)
  | [] => none
  | c :: rest =>
    if c = '*' ∧ rest.head? = some '/' then some rest.tail
    else if c = '\n' then none
    else findBlockEnd rest

/-- Fuel-indexed scan for the block-comment replacement; the fuel only makes
the recursion structural (each step of the scan consumes at least one
character, so fuel equal to the input length never runs out). -/
def stripBlockCommentsFuel : Nat → List Char → List Char
  | _, [] => []
  | 0, l => l
  | fuel + 1, c :: rest =>
    if c = '/' ∧ rest.head? = some '*' then
      match findBlockEnd rest.tail with
      | some rem => stripBlockCommentsFuel fuel rem
      | none => c :: stripBlockCommentsFuel fuel rest
    else c :: stripBlockCommentsFuel fuel rest

/-- Replacement of the Go regexp `/\*.*?\*/` by the empty string: leftmost
non-overlapping matches, shortest completion at each start, no newline inside. -/
def stripBlockComments (l : List Char) : List Char :=
  stripBlockCommentsFuel l.length l

/-- Comment removal of `removeComments`: the line-comment regexp is applied
first, then the block-comment regexp. -/
def removeComments (q : List Char) : List Char :=
  stripBlockComments (stripLineComment q)

/-- Leading verb extraction of `extractOperation`: comments are removed, then
the first whitespace-delimited word is taken (empty when there is none). -/
def extractOperation (q : List Char) : List Char :=
  match goFields (removeComments q) with
  | [] => []
  | w :: _ => w

/-- Verb group of the stacked-statement and UNION regexps:
`(DELETE|DROP|UPDATE|TRUNCATE|INSERT|ALTER|CREATE)`. -/
def dangerVerbs : List (List Char) :=
  ["DELETE".toList, "DROP".toList, "UPDATE".toList, "TRUNCATE".toList,
   "INSERT".toList, "ALTER".toList, "CREATE".toList]

/-- Match test for the regexp `;\s*(DELETE|DROP|UPDATE|TRUNCATE|INSERT|ALTER|CREATE)`. -/
def matchStacked : List Char → Bool
  | [] => false
  | c :: rest =>
    (c == ';' && dangerVerbs.any (fun v => startsW (rest.dropWhile isRegexSpace) v))
      || matchStacked rest

/-- Does one of the danger verbs occur before the next newline. -/
def lineHasDangerVerb (l : List Char) : Bool :=
  dangerVerbs.any (fun v => containsSub (l.takeWhile (fun c => c != '\n')) v)

/-- Match test for the regexp `UNION.*?(DELETE|DROP|UPDATE|TRUNCATE|INSERT|ALTER|CREATE)`. -/
def matchUnionDanger : List Char → Bool
  | [] => false
  | c :: rest =>
    (startsW (c :: rest) "UNION".toList && lineHasDangerVerb (List.drop 4 rest))
      || matchUnionDanger rest

/-- Match test for the regexp `(EXEC|EXECUTE|SP_|XP_)`. -/
def matchStoredProc (q : List Char) : Bool :=
  containsSub q "EXEC".toList || containsSub q "EXECUTE".toList ||
  containsSub q "SP_".toList || containsSub q "XP_".toList

/-- After `INTO`, at least one `\s` character then the target word. -/
def afterWsPlus (target l : List Char) : Bool :=
  match l with
  | [] => false
  | d :: _ => isRegexSpace d && startsW (l.dropWhile isRegexSpace) target

/-- Match test for `INTO\s+` followed by the given word. -/
def matchInto (target : List Char) : List Char → Bool
  | [] => false
  | c :: rest =>
    (startsW (c :: rest) "INTO".toList && afterWsPlus target (List.drop 3 rest))
      || matchInto target rest

/-- Match test for the regexp `(LOAD_FILE|INTO\s+OUTFILE|INTO\s+DUMPFILE)`. -/
def matchFileOps (q : List Char) : Bool :=
  containsSub q "LOAD_FILE".toList || matchInto "OUTFILE".toList q ||
  matchInto "DUMPFILE".toList q

/-- Match test for the regexp `(BENCHMARK|SLEEP)`. -/
def matchTiming (q : List Char) : Bool :=
  containsSub q "BENCHMARK".toList || containsSub q "SLEEP".toList

/-- Dangerous-pattern battery of `checkForDangerousPatterns`: the five fixed
patterns are tried in order and the description of the first match is
returned. -/
def checkForDangerousPatterns (q : List Char) : Option String :=
  if matchStacked q then some "multiple statements with dangerous operations"
  else if matchUnionDanger q then some "UNION with dangerous operations"
  else if matchStoredProc q then some "stored procedure execution"
  else if matchFileOps q then some "file system operations"
  else if matchTiming q then some "timing attack functions"
  else none

/-- Security policy record of `SQLSecurityPolicy`. -/
structure SQLSecurityPolicy where
  AllowedOperations : List String
  BlockedOperations : List String
  AllowUnsafeMode : Bool
deriving DecidableEq

/-- Validator record of `SQLValidator`. -/
structure SQLValidator where
  policy : SQLSecurityPolicy
deriving DecidableEq

/-- Default secure validator of `NewSQLValidator`. -/
def NewSQLValidator : SQLValidator :=
  ⟨⟨["SELECT", "SHOW", "DESCRIBE", "EXPLAIN"],
    ["DELETE", "DROP", "UPDATE", "TRUNCATE", "INSERT", "ALTER", "CREATE", "GRANT", "REVOKE"],
    false⟩⟩

/-- Allow-everything validator of `NewUnsafeSQLValidator`. -/
def NewUnsafeSQLValidator : SQLValidator :=
  ⟨⟨[], [], true⟩⟩

/-- Validation outcomes of `ValidateSQL`, with the data that the Go error
messages interpolate (the offending verb and the allowed list that the
message joins). -/
inductive ValidationError where
  | emptyQuery
  | blockedOperation (op : String) (allowed : List String)
  | notAllowed (op : String) (allowed : List String)
  | dangerousPattern (descr : String)
deriving DecidableEq

/-- Joining of a string list with a comma separator, as `strings.Join(l, ", ")`. -/
def joinComma : List String → String
  | [] => ""
  | [x] => x
  | x :: y :: xs => x ++ ", " ++ joinComma (y :: xs)

/-- Single-quote character, kept out of source literals. -/
def squote : String := String.singleton (Char.ofNat 39)

/-- Rendering of the Go error messages produced by `ValidateSQL`. -/
def ValidationError.message : ValidationError → String
  | .emptyQuery => "empty query not allowed"
  | .blockedOperation op allowed =>
      "operation " ++ squote ++ op ++ squote ++
      " is blocked for security reasons. Only read-only operations are allowed: " ++
      joinComma allowed
  | .notAllowed op allowed =>
      "operation " ++ squote ++ op ++ squote ++ " is not allowed. Allowed operations: " ++
      joinComma allowed
  | .dangerousPattern d => "dangerous SQL pattern detected: " ++ d

/-- The working text of `ValidateSQL`: `strings.TrimSpace(strings.ToUpper(query))`. -/
def cleanQueryOf (q : String) : List Char :=
  trimSpace (q.toList.map goUpperChar)

/-- Outcome of the dangerous-pattern step of `ValidateSQL`: the first
matching description, wrapped as a DangerousPattern failure. -/
def dangerOutcome (c : List Char) : Option ValidationError :=
  match checkForDangerousPatterns c with
  | some d => some (ValidationError.dangerousPattern d)
  | none => none

/-- Validation algorithm of `ValidateSQL`: unsafe mode passes everything;
otherwise the trimmed upper-cased text is rejected when empty, its leading
verb (from the comment-stripped copy) is checked against the blocked and
allowed lists, and finally the dangerous-pattern battery runs on the
trimmed upper-cased (not comment-stripped) text. The source's range loops
comparing the verb with `strings.ToUpper` of each list entry are embedded
as membership in the ToUpper-image of the list (the loop's outcome depends
only on whether some entry matches). -/
def ValidateSQL (v : SQLValidator) (query : String) : Option ValidationError :=
  if v.policy.AllowUnsafeMode then none
  else if cleanQueryOf query = [] then some ValidationError.emptyQuery
  else if extractOperation (cleanQueryOf query) ∈
      v.policy.BlockedOperations.map (fun b => b.toList.map goUpperChar) then
    some (ValidationError.blockedOperation
      (String.mk (extractOperation (cleanQueryOf query))) v.policy.AllowedOperations)
  else if 0 < v.policy.AllowedOperations.length then
    if extractOperation (cleanQueryOf query) ∈
        v.policy.AllowedOperations.map (fun a => a.toList.map goUpperChar) then
      dangerOutcome (cleanQueryOf query)
    else
      some (ValidationError.notAllowed
        (String.mk (extractOperation (cleanQueryOf query))) v.policy.AllowedOperations)
  else dangerOutcome (cleanQueryOf query)

/-- Database configuration record of `config.DatabaseConfig` (the fields
`NewEnhanced` validates). -/
structure DatabaseConfig where
  Host : String
  Port : Nat
  Username : String
  Password : String
  DBName : String
deriving DecidableEq

/-- Trace events for the calls the manager makes on the driver and on its
own control structures. -/
inductive NetEvent where
  | sqlOpen
  | ping (timeoutSec : Nat)
  | runQuery (q : String)
  | closeHandle
  | signalStop
  | stopTicker
deriving DecidableEq

/-- Manager state of `EnhancedDB`. The `sync` primitives are represented by
the fields they guard: `db` is the handle pointer (`none` = nil),
`stopPending` is the occupancy of the capacity-1 buffered stop channel, and
`loopAlive` records whether the reconnection goroutine is running. -/
structure EnhancedDB where
  config : DatabaseConfig
  db : Option Unit
  connected : Bool
  lastError : Option String
  reconnectTicker : Bool
  stopPending : Nat
  loopAlive : Bool
  sqlValidator : SQLValidator
deriving DecidableEq

/-- Outcome oracle for one `connect()` attempt: `sql.Open` failure, ping
failure, or success. -/
inductive ConnectOutcome where
  | openFail (e : String)
  | pingFail (e : String)
  | ok
deriving DecidableEq

/-- Missing-field list computed by `validateConfig`, in source order. -/
def validateConfigMissing (cfg : DatabaseConfig) : List String :=
  (if cfg.Host = "" then ["host"] else []) ++
  (if cfg.Port = 0 then ["port"] else []) ++
  (if cfg.Username = "" then ["username"] else []) ++
  (if cfg.Password = "" then ["password"] else []) ++
  (if cfg.DBName = "" then ["dbname"] else [])

/-- Connection attempt of `connect()`: any existing handle is closed first
(the pointer is not cleared), then the driver is opened and pinged with a
10-second timeout; success installs the new handle and sets `connected`,
failure records the error and clears `connected`. -/
def connect (s : EnhancedDB) (co : ConnectOutcome) : Option String × EnhancedDB × List NetEvent :=
  let closeEvs : List NetEvent := if s.db.isSome then [NetEvent.closeHandle] else []
  match co with
  | ConnectOutcome.openFail e =>
      (some ("failed to open database: " ++ e),
       { s with lastError := some e, connected := false },
       closeEvs ++ [NetEvent.sqlOpen])
  | ConnectOutcome.pingFail e =>
      (some ("failed to ping database: " ++ e),
       { s with lastError := some e, connected := false },
       closeEvs ++ [NetEvent.sqlOpen, NetEvent.ping 10, NetEvent.closeHandle])
  | ConnectOutcome.ok =>
      (none,
       { s with db := some (), connected := true, lastError := none },
       closeEvs ++ [NetEvent.sqlOpen, NetEvent.ping 10])

/-- Effect of `startReconnectRoutine`: a ticker is created and the
reconnection goroutine starts. -/
def startReconnectRoutine (s : EnhancedDB) : EnhancedDB :=
  { s with reconnectTicker := true, loopAlive := true }

/-- Fresh manager value allocated at the top of `NewEnhanced`: nil handle,
disconnected, capacity-1 stop channel empty, secure default validator. -/
def initialManager (cfg : DatabaseConfig) : EnhancedDB :=
  { config := cfg, db := none, connected := false, lastError := none,
    reconnectTicker := false, stopPending := 0, loopAlive := false,
    sqlValidator := NewSQLValidator }

/-- Constructor `NewEnhanced`: validate the configuration (an error here
reports the missing fields and performs no driver call), then attempt one
`connect()`; on failure the reconnection routine is started and the
disconnected manager is still returned. -/
def NewEnhanced (cfg : DatabaseConfig) (co : ConnectOutcome) :
    Except (List String) EnhancedDB × List NetEvent :=
  if validateConfigMissing cfg = [] then
    match connect (initialManager cfg) co with
    | (some _, s1, evs) => (Except.ok (startReconnectRoutine s1), evs)
    | (none, s1, evs) => (Except.ok s1, evs)
  else (Except.error (validateConfigMissing cfg), [])

/-- Connected-flag read of `IsConnected`. -/
def IsConnected (s : EnhancedDB) : Bool :=
  s.connected

/-- Health check of `HealthCheck`: fails at once when disconnected, then
guards against a nil handle, then pings with a 5-second timeout; a ping
failure clears `connected` and records the error. -/
def HealthCheck (s : EnhancedDB) (pingErr : Option String) :
    Option String × EnhancedDB × List NetEvent :=
  if IsConnected s = false then (some "database not connected", s, [])
  else
    match s.db with
    | none => (some "database connection is nil", s, [])
    | some _ =>
      match pingErr with
      | some e =>
          (some ("database ping failed: " ++ e),
           { s with connected := false, lastError := some e },
           [NetEvent.ping 5])
      | none => (none, s, [NetEvent.ping 5])

/-- Result set handed back by the driver: column names and the value rows. -/
structure SqlRows where
  columns : List String
  rows : List (List String)
deriving DecidableEq

/-- Query execution of `ExecuteQuery`: validation first (a failure returns
the wrapped validation error with no driver call and no state change), then
the connected check, then the nil-handle guard, then the driver call whose
outcome is the `net` oracle. -/
def ExecuteQuery (s : EnhancedDB) (q : String) (net : Except String SqlRows) :
    Except String SqlRows × EnhancedDB × List NetEvent :=
  match ValidateSQL s.sqlValidator q with
  | some err =>
      (Except.error ("SQL security validation failed: " ++ err.message), s, [])
  | none =>
    if IsConnected s = false then
      (Except.error ("database not connected - query: " ++ q), s, [])
    else
      match s.db with
      | none => (Except.error "database connection is nil", s, [])
      | some _ => (net, s, [NetEvent.runQuery q])

/-- Row materialization of the `EnhancedDB.Query` wrapper: delegate to
`ExecuteQuery` and turn each row into column-name/value pairs. -/
def EnhancedDB.Query (s : EnhancedDB) (q : String) (net : Except String SqlRows) :
    Except String (List (List (String × String))) × EnhancedDB × List NetEvent :=
  match ExecuteQuery s q net with
  | (Except.error e, s1, evs) => (Except.error e, s1, evs)
  | (Except.ok rows, s1, evs) =>
      (Except.ok (rows.rows.map (fun r => rows.columns.zip r)), s1, evs)

/-- Send on the capacity-1 buffered `stopReconnect` channel. An empty buffer
accepts the value; a full buffer is drained by the live loop (which then
exits) before the value is accepted; a full buffer with no receiver blocks
forever (`none`). -/
def sendStop (s : EnhancedDB) : Option EnhancedDB :=
  if s.stopPending = 0 then some { s with stopPending := 1 }
  else if s.loopAlive then some { s with loopAlive := false }
  else none

/-- Shutdown of `Close()`: when the ticker exists, the stop signal is sent
(each call sends) and the ticker stopped; then the handle, if any, is
closed, cleared and `connected` reset. `none` is the send blocking forever. -/
def EnhancedDB.Close (s : EnhancedDB) (closeErr : Option String) :
    Option (Option String × EnhancedDB × List NetEvent) :=
  match (if s.reconnectTicker then
           match sendStop s with
           | some s1 => some (s1, [NetEvent.signalStop, NetEvent.stopTicker])
           | none => none
         else some (s, ([] : List NetEvent))) with
  | none => none
  | some (s1, evs) =>
    match s1.db with
    | some _ =>
        some (closeErr, { s1 with db := none, connected := false },
              evs ++ [NetEvent.closeHandle])
    | none => some (none, s1, evs)

/-- Reconnection goroutine receiving the stop signal and returning. -/
def loopReceiveStop (s : EnhancedDB) : Option EnhancedDB :=
  if s.loopAlive ∧ 0 < s.stopPending then
    some { s with loopAlive := false, stopPending := s.stopPending - 1 }
  else none

/-- Reconnection goroutine tick: when the loop is running and the manager is
disconnected, one `connect()` attempt is made. -/
def loopTick (s : EnhancedDB) (co : ConnectOutcome) : EnhancedDB × List NetEvent :=
  if s.loopAlive ∧ IsConnected s = false then
    let r := connect s co
    (r.2.1, r.2.2)
  else (s, [])

/-- Mode switch of `EnableUnsafeMode`: the validator is replaced by the
allow-everything one. -/
def EnableUnsafeMode (s : EnhancedDB) : EnhancedDB :=
  { s with sqlValidator := NewUnsafeSQLValidator }

/-- Mode switch of `DisableUnsafeMode`: the validator returns to the secure
defaults. -/
def DisableUnsafeMode (s : EnhancedDB) : EnhancedDB :=
  { s with sqlValidator := NewSQLValidator }

/-- Unsafe-mode flag read of `IsUnsafeModeEnabled`. -/
def IsUnsafeModeEnabled (s : EnhancedDB) : Bool :=
  s.sqlValidator.policy.AllowUnsafeMode

/-- Allowed-operations read of `GetAllowedOperations`. -/
def GetAllowedOperations (s : EnhancedDB) : List String :=
  if s.sqlValidator.policy.AllowUnsafeMode then ["ALL_OPERATIONS"]
  else s.sqlValidator.policy.AllowedOperations

/-- Blocked-operations read of `GetBlockedOperations`. -/
def GetBlockedOperations (s : EnhancedDB) : List String :=
  if s.sqlValidator.policy.AllowUnsafeMode then []
  else s.sqlValidator.policy.BlockedOperations

/-- Sample complete configuration used by witnesses. -/
def sampleConfig : DatabaseConfig :=
  { Host := "localhost", Port := 3306, Username := "root",
    Password := "secret", DBName := "appdb" }

/-- Sample connected manager with the secure default validator. -/
def sampleDB : EnhancedDB :=
  { config := sampleConfig, db := some (), connected := true, lastError := none,
    reconnectTicker := false, stopPending := 0, loopAlive := false,
    sqlValidator := NewSQLValidator }

/-! Helper lemmas shared by the claim theorems. -/

/-- Upper-cased allowed list of the Safe policy, as the verb is compared. -/
def safeAllowedUpper : List (List Char) :=
  NewSQLValidator.policy.AllowedOperations.map (fun a => a.toList.map goUpperChar)

/-- Upper-cased blocked list of the Safe policy, as the verb is compared. -/
def safeBlockedUpper : List (List Char) :=
  NewSQLValidator.policy.BlockedOperations.map (fun b => b.toList.map goUpperChar)

/-- Leading verb of a query, as `ValidateSQL` computes it. -/
def queryVerb (q : String) : List Char :=
  extractOperation (cleanQueryOf q)

theorem safe_allowed_not_blocked : ∀ v ∈ safeAllowedUpper, v ∉ safeBlockedUpper := by
  decide

theorem nil_not_mem_safe_allowed : ([] : List Char) ∉ safeAllowedUpper := by decide

theorem nil_not_mem_safe_blocked : ([] : List Char) ∉ safeBlockedUpper := by decide

theorem extractOperation_nil : extractOperation [] = [] := rfl

/-- Branch characterization of `ValidateSQL` under the Safe default policy. -/
theorem validateSQL_safe_eq (q : String) :
    ValidateSQL NewSQLValidator q =
      (if cleanQueryOf q = [] then some ValidationError.emptyQuery
       else if queryVerb q ∈ safeBlockedUpper then
         some (ValidationError.blockedOperation (String.mk (queryVerb q))
           ["SELECT", "SHOW", "DESCRIBE", "EXPLAIN"])
       else if queryVerb q ∈ safeAllowedUpper then
         (match checkForDangerousPatterns (cleanQueryOf q) with
          | some d => some (ValidationError.dangerousPattern d)
          | none => none)
       else
         some (ValidationError.notAllowed (String.mk (queryVerb q))
           ["SELECT", "SHOW", "DESCRIBE", "EXPLAIN"])) := by
  have h0 : ¬ (NewSQLValidator.policy.AllowUnsafeMode = true) := by decide
  have hlen : 0 < NewSQLValidator.policy.AllowedOperations.length := by decide
  unfold ValidateSQL
  rw [if_neg h0, if_pos hlen]
  unfold safeBlockedUpper safeAllowedUpper queryVerb dangerOutcome
  by_cases hc : cleanQueryOf q = []
  · rw [if_pos hc, if_pos hc]
  · rw [if_neg hc, if_neg hc]
    by_cases hb : extractOperation (cleanQueryOf q) ∈
        NewSQLValidator.policy.BlockedOperations.map (fun b => b.toList.map goUpperChar)
    · rw [if_pos hb, if_pos hb]; rfl
    · rw [if_neg hb, if_neg hb]
      by_cases ha : extractOperation (cleanQueryOf q) ∈
          NewSQLValidator.policy.AllowedOperations.map (fun a => a.toList.map goUpperChar)
      · rw [if_pos ha, if_pos ha]
      · rw [if_neg ha, if_neg ha]; rfl

/-! Claim theorems. -/

/-- Claim C1, counterexample: the queries `SELECT 1 -- SLEEP` and
`SELECT 1 --` have identical comment-stripped working copies, yet the first
fails with a DangerousPattern (the `SLEEP` inside the comment is seen by the
battery) while the second passes — so the DangerousPattern outcome does not
depend only on the comment-stripped text. -/
theorem c1_counterexample :
    removeComments (cleanQueryOf "SELECT 1 -- SLEEP") =
      removeComments (cleanQueryOf "SELECT 1 --")
    ∧ ValidateSQL NewSQLValidator "SELECT 1 -- SLEEP" =
      some (ValidationError.dangerousPattern "timing attack functions")
    ∧ ValidateSQL NewSQLValidator "SELECT 1 --" = none := by decide

/-- Claim C1, amended: `ValidateSQL` runs the dangerous-pattern battery on
the upper-cased, whitespace-trimmed original text, with comments NOT
removed (comment stripping feeds only verb extraction), so the whole Safe
outcome — the DangerousPattern outcome included — depends only on the
trimmed upper-cased copy of the query, and a dangerous token inside a
comment does cause a DangerousPattern failure. -/
theorem c1_amended_clean_determines_outcome (q₁ q₂ : String)
    (h : cleanQueryOf q₁ = cleanQueryOf q₂) :
    ValidateSQL NewSQLValidator q₁ = ValidateSQL NewSQLValidator q₂ := by
  unfold ValidateSQL
  rw [h]

/-- Witness for the amended C1 theorem at two concrete spellings of the same
trimmed upper-cased query. -/
theorem c1_amended_witness :
    ValidateSQL NewSQLValidator "select 1" = ValidateSQL NewSQLValidator "  SELECT 1  " :=
  c1_amended_clean_determines_outcome "select 1" "  SELECT 1  " (by decide)

/-- Claim C2, counterexample: a semicolon followed by GRANT passes
`ValidateSQL` outright (GRANT and REVOKE are missing from the
stacked-statement pattern), and a stacked query whose leading verb is itself
blocked fails with BlockedOperation, not DangerousPattern. -/
theorem c2_counterexample :
    ValidateSQL NewSQLValidator "SELECT * FROM users; GRANT ALL ON db TO u" = none
    ∧ ValidateSQL NewSQLValidator "DELETE FROM a; DROP TABLE b" =
        some (ValidationError.blockedOperation "DELETE"
          ["SELECT", "SHOW", "DESCRIBE", "EXPLAIN"]) := by decide

/-- Claim C2, amended: under the Safe policy, every query whose trimmed
upper-cased text contains a semicolon followed by optional whitespace and a
verb in {DELETE, DROP, UPDATE, TRUNCATE, INSERT, ALTER, CREATE} fails
`ValidateSQL`; when the leading verb is in the allowed set the failure is
the stacked-statement DangerousPattern (in particular
`SELECT * FROM users; DROP TABLE users;` fails so), while GRANT and REVOKE
after a semicolon are not covered by the pattern. -/
theorem c2_amended_stacked (q : String) (h : matchStacked (cleanQueryOf q) = true) :
    (ValidateSQL NewSQLValidator q).isSome = true
    ∧ (queryVerb q ∈ safeAllowedUpper →
        ValidateSQL NewSQLValidator q =
          some (ValidationError.dangerousPattern
            "multiple statements with dangerous operations")) := by
  have hne : cleanQueryOf q ≠ [] := by
    intro hc
    rw [hc] at h
    simp [matchStacked] at h
  have hdanger : checkForDangerousPatterns (cleanQueryOf q) =
      some "multiple statements with dangerous operations" := by
    unfold checkForDangerousPatterns
    rw [if_pos h]
  constructor
  · rw [validateSQL_safe_eq, if_neg hne]
    by_cases hb : queryVerb q ∈ safeBlockedUpper
    · rw [if_pos hb]; rfl
    · rw [if_neg hb]
      by_cases ha : queryVerb q ∈ safeAllowedUpper
      · rw [if_pos ha, hdanger]; rfl
      · rw [if_neg ha]; rfl
  · intro ha
    have hb : queryVerb q ∉ safeBlockedUpper := safe_allowed_not_blocked _ ha
    rw [validateSQL_safe_eq, if_neg hne, if_neg hb, if_pos ha, hdanger]

/-- Witness for the amended C2 theorem: the stacked query from the spec
fails with the stacked-statement DangerousPattern. -/
theorem c2_amended_witness :
    (ValidateSQL NewSQLValidator "SELECT * FROM users; DROP TABLE users;").isSome = true
    ∧ ValidateSQL NewSQLValidator "SELECT * FROM users; DROP TABLE users;" =
        some (ValidationError.dangerousPattern
          "multiple statements with dangerous operations") :=
  ⟨(c2_amended_stacked "SELECT * FROM users; DROP TABLE users;" (by decide)).1,
   (c2_amended_stacked "SELECT * FROM users; DROP TABLE users;" (by decide)).2 (by decide)⟩

/-- Claim C4: the mode-toggle round trip on a manager with the Safe
defaults — `DELETE FROM users WHERE id=1` fails under Safe, passes after
`EnableUnsafeMode`, fails again after `DisableUnsafeMode`; while unsafe the
operation lists read `[ALL_OPERATIONS]` and `[]`, and afterwards the Safe
allowed list returns. -/
theorem c4_mode_toggle_round_trip :
    ValidateSQL sampleDB.sqlValidator "DELETE FROM users WHERE id=1" =
      some (ValidationError.blockedOperation "DELETE"
        ["SELECT", "SHOW", "DESCRIBE", "EXPLAIN"])
    ∧ ValidateSQL (EnableUnsafeMode sampleDB).sqlValidator "DELETE FROM users WHERE id=1" = none
    ∧ ValidateSQL (DisableUnsafeMode (EnableUnsafeMode sampleDB)).sqlValidator
        "DELETE FROM users WHERE id=1" =
      some (ValidationError.blockedOperation "DELETE"
        ["SELECT", "SHOW", "DESCRIBE", "EXPLAIN"])
    ∧ GetAllowedOperations (EnableUnsafeMode sampleDB) = ["ALL_OPERATIONS"]
    ∧ GetBlockedOperations (EnableUnsafeMode sampleDB) = []
    ∧ GetAllowedOperations (DisableUnsafeMode (EnableUnsafeMode sampleDB)) =
      ["SELECT", "SHOW", "DESCRIBE", "EXPLAIN"] := by decide

/-- Claim C5: verb classification under the Safe policy — an allowed leading
verb with no dangerous pattern passes; a blocked leading verb fails with a
BlockedOperation carrying the allowed set; any other non-empty query fails
with NotAllowed. -/
theorem c5_verb_classification (q : String) :
    (queryVerb q ∈ safeAllowedUpper →
        checkForDangerousPatterns (cleanQueryOf q) = none →
        ValidateSQL NewSQLValidator q = none)
    ∧ (queryVerb q ∈ safeBlockedUpper →
        ValidateSQL NewSQLValidator q =
          some (ValidationError.blockedOperation (String.mk (queryVerb q))
            ["SELECT", "SHOW", "DESCRIBE", "EXPLAIN"]))
    ∧ (cleanQueryOf q ≠ [] → queryVerb q ∉ safeAllowedUpper →
        queryVerb q ∉ safeBlockedUpper →
        ValidateSQL NewSQLValidator q =
          some (ValidationError.notAllowed (String.mk (queryVerb q))
            ["SELECT", "SHOW", "DESCRIBE", "EXPLAIN"])) := by
  refine ⟨?_, ?_, ?_⟩
  · intro ha hd
    have hne : cleanQueryOf q ≠ [] := by
      intro hc
      rw [queryVerb, hc, extractOperation_nil] at ha
      exact nil_not_mem_safe_allowed ha
    have hb : queryVerb q ∉ safeBlockedUpper := safe_allowed_not_blocked _ ha
    rw [validateSQL_safe_eq, if_neg hne, if_neg hb, if_pos ha, hd]
  · intro hb
    have hne : cleanQueryOf q ≠ [] := by
      intro hc
      rw [queryVerb, hc, extractOperation_nil] at hb
      exact nil_not_mem_safe_blocked hb
    rw [validateSQL_safe_eq, if_neg hne, if_pos hb]
  · intro hne ha hb
    rw [validateSQL_safe_eq, if_neg hne, if_neg hb, if_neg ha]

/-- Witness for C5 at one query of each class. -/
theorem c5_witness :
    ValidateSQL NewSQLValidator "SHOW TABLES" = none
    ∧ ValidateSQL NewSQLValidator "DROP TABLE users" =
        some (ValidationError.blockedOperation (String.mk (queryVerb "DROP TABLE users"))
          ["SELECT", "SHOW", "DESCRIBE", "EXPLAIN"])
    ∧ ValidateSQL NewSQLValidator "FOO BAR" =
        some (ValidationError.notAllowed (String.mk (queryVerb "FOO BAR"))
          ["SELECT", "SHOW", "DESCRIBE", "EXPLAIN"]) :=
  ⟨(c5_verb_classification "SHOW TABLES").1 (by decide) (by decide),
   (c5_verb_classification "DROP TABLE users").2.1 (by decide),
   (c5_verb_classification "FOO BAR").2.2 (by decide) (by decide) (by decide)⟩

/-- Claim C6: with `AllowUnsafeMode=true` in the active policy, every query
string — empty, whitespace-only, blocked verbs, dangerous patterns — passes
`ValidateSQL`. -/
theorem c6_unsafe_mode_allows_everything (v : SQLValidator) (q : String)
    (h : v.policy.AllowUnsafeMode = true) : ValidateSQL v q = none := by
  simp [ValidateSQL, h]

/-- Witness for C6 on the empty string and on a query that is both blocked
and dangerous. -/
theorem c6_witness :
    ValidateSQL NewUnsafeSQLValidator "" = none
    ∧ ValidateSQL NewUnsafeSQLValidator "DROP TABLE users; DELETE FROM x" = none :=
  ⟨c6_unsafe_mode_allows_everything NewUnsafeSQLValidator "" rfl,
   c6_unsafe_mode_allows_everything NewUnsafeSQLValidator "DROP TABLE users; DELETE FROM x" rfl⟩

/-- Claim C3: when validation fails, `ExecuteQuery` (and hence the `Query`
wrapper) returns the wrapped validation error with the manager state
untouched and an empty driver-event trace — zero calls reach the backing
store. -/
theorem c3_validation_blocks_io (s : EnhancedDB) (q : String) (err : ValidationError)
    (net : Except String SqlRows) (h : ValidateSQL s.sqlValidator q = some err) :
    ExecuteQuery s q net =
      (Except.error ("SQL security validation failed: " ++ err.message), s, [])
    ∧ EnhancedDB.Query s q net =
      (Except.error ("SQL security validation failed: " ++ err.message), s, []) := by
  have h1 : ExecuteQuery s q net =
      (Except.error ("SQL security validation failed: " ++ err.message), s, []) := by
    unfold ExecuteQuery
    rw [h]
  refine ⟨h1, ?_⟩
  unfold EnhancedDB.Query
  rw [h1]

/-- Witness for C3 on a connected manager and a blocked query. -/
theorem c3_witness :
    ExecuteQuery sampleDB "DROP TABLE users" (Except.error "unreached") =
      (Except.error ("SQL security validation failed: " ++
        (ValidationError.blockedOperation "DROP"
          ["SELECT", "SHOW", "DESCRIBE", "EXPLAIN"]).message),
       sampleDB, []) :=
  (c3_validation_blocks_io sampleDB "DROP TABLE users"
    (ValidationError.blockedOperation "DROP" ["SELECT", "SHOW", "DESCRIBE", "EXPLAIN"])
    (Except.error "unreached") (by decide)).1

theorem validateConfigMissing_nil_iff (cfg : DatabaseConfig) :
    validateConfigMissing cfg = [] ↔
      ¬(cfg.Host = "" ∨ cfg.Port = 0 ∨ cfg.Username = "" ∨ cfg.Password = "" ∨
        cfg.DBName = "") := by
  unfold validateConfigMissing
  by_cases h1 : cfg.Host = "" <;> by_cases h2 : cfg.Port = 0 <;>
    by_cases h3 : cfg.Username = "" <;> by_cases h4 : cfg.Password = "" <;>
    by_cases h5 : cfg.DBName = "" <;> simp [h1, h2, h3, h4, h5]

/-- Claim C7: `NewEnhanced` fails with a ConfigurationError — and performs
no driver call — exactly when one of host, port, username, password or
database name is empty/zero; with a complete configuration and a failing
initial `connect()`, construction still returns a usable manager whose
`IsConnected` is false and whose background reconnection loop has been
started. -/
theorem c7_construction (cfg : DatabaseConfig) (co : ConnectOutcome) :
    ((∃ m, (NewEnhanced cfg co).1 = Except.error m) ↔
      (cfg.Host = "" ∨ cfg.Port = 0 ∨ cfg.Username = "" ∨ cfg.Password = "" ∨
        cfg.DBName = ""))
    ∧ ((∃ m, (NewEnhanced cfg co).1 = Except.error m) → (NewEnhanced cfg co).2 = [])
    ∧ (∀ e, co = ConnectOutcome.openFail e ∨ co = ConnectOutcome.pingFail e →
        ¬(cfg.Host = "" ∨ cfg.Port = 0 ∨ cfg.Username = "" ∨ cfg.Password = "" ∨
          cfg.DBName = "") →
        ∃ edb, (NewEnhanced cfg co).1 = Except.ok edb ∧ IsConnected edb = false ∧
          edb.reconnectTicker = true ∧ edb.loopAlive = true) := by
  refine ⟨⟨?_, ?_⟩, ?_, ?_⟩
  · rintro ⟨m, hm⟩
    by_contra hdisj
    have hnil : validateConfigMissing cfg = [] :=
      (validateConfigMissing_nil_iff cfg).mpr hdisj
    unfold NewEnhanced at hm
    rw [if_pos hnil] at hm
    rcases hco : connect (initialManager cfg) co with ⟨r, s1, evs⟩
    rw [hco] at hm
    cases r <;> simp at hm
  · intro hdisj
    have hne : validateConfigMissing cfg ≠ [] :=
      fun hnil => ((validateConfigMissing_nil_iff cfg).mp hnil) hdisj
    refine ⟨validateConfigMissing cfg, ?_⟩
    unfold NewEnhanced
    rw [if_neg hne]
  · rintro ⟨m, hm⟩
    by_cases hnil : validateConfigMissing cfg = []
    · exfalso
      unfold NewEnhanced at hm
      rw [if_pos hnil] at hm
      rcases hco : connect (initialManager cfg) co with ⟨r, s1, evs⟩
      rw [hco] at hm
      cases r <;> simp at hm
    · unfold NewEnhanced
      rw [if_neg hnil]
  · intro e hco hdisj
    have hnil : validateConfigMissing cfg = [] :=
      (validateConfigMissing_nil_iff cfg).mpr hdisj
    unfold NewEnhanced
    rw [if_pos hnil]
    rcases hco with rfl | rfl
    · exact ⟨_, rfl, rfl, rfl, rfl⟩
    · exact ⟨_, rfl, rfl, rfl, rfl⟩

/-- Witness for C7: an empty host makes construction fail, and a complete
configuration with a failing ping yields a disconnected manager with the
loop running. -/
theorem c7_witness :
    (∃ m, (NewEnhanced
      { Host := "", Port := 3306, Username := "root", Password := "secret",
        DBName := "appdb" } ConnectOutcome.ok).1 = Except.error m)
    ∧ ∃ edb, (NewEnhanced sampleConfig (ConnectOutcome.pingFail "connection refused")).1 =
        Except.ok edb ∧ IsConnected edb = false ∧ edb.reconnectTicker = true ∧
        edb.loopAlive = true :=
  ⟨(c7_construction _ ConnectOutcome.ok).1.mpr (Or.inl rfl),
   (c7_construction sampleConfig (ConnectOutcome.pingFail "connection refused")).2.2
     "connection refused" (Or.inr rfl) (by decide)⟩

/-- Claim C8: `HealthCheck` errors immediately when disconnected (no ping);
when connected with the handle present, it pings with the bounded 5-second
timeout — a ping failure flips the state to disconnected (so `IsConnected`
reports false) and returns the error, a ping success returns no error and
leaves the state untouched. -/
theorem c8_health_check (s : EnhancedDB) (p : Option String) :
    (IsConnected s = false → HealthCheck s p = (some "database not connected", s, []))
    ∧ (IsConnected s = true → s.db = some () →
        (p = none → HealthCheck s p = (none, s, [NetEvent.ping 5]))
        ∧ (∀ e, p = some e →
            HealthCheck s p =
              (some ("database ping failed: " ++ e),
               { s with connected := false, lastError := some e }, [NetEvent.ping 5])
            ∧ IsConnected { s with connected := false, lastError := some e } = false)) := by
  constructor
  · intro h
    unfold HealthCheck
    rw [if_pos h]
  · intro hconn hdb
    have hni : ¬ (IsConnected s = false) := by rw [hconn]; simp
    constructor
    · intro hp
      unfold HealthCheck
      rw [if_neg hni, hdb, hp]
    · intro e hp
      refine ⟨?_, rfl⟩
      unfold HealthCheck
      rw [if_neg hni, hdb, hp]

/-- Witness for C8 in the disconnected, ping-success and ping-failure cases. -/
theorem c8_witness :
    HealthCheck { sampleDB with connected := false } none =
      (some "database not connected", { sampleDB with connected := false }, [])
    ∧ HealthCheck sampleDB none = (none, sampleDB, [NetEvent.ping 5])
    ∧ HealthCheck sampleDB (some "timeout") =
        (some ("database ping failed: " ++ "timeout"),
         { sampleDB with connected := false, lastError := some "timeout" },
         [NetEvent.ping 5]) :=
  ⟨(c8_health_check { sampleDB with connected := false } none).1 rfl,
   ((c8_health_check sampleDB none).2 rfl rfl).1 rfl,
   (((c8_health_check sampleDB (some "timeout")).2 rfl rfl).2 "timeout" rfl).1⟩

/-- Manager state after a construction whose initial connect failed: the
reconnection loop is running, no stop signal pending, no handle. -/
def mgr0 : EnhancedDB :=
  { config := sampleConfig, db := none, connected := false,
    lastError := some "dial error", reconnectTicker := true,
    stopPending := 0, loopAlive := true, sqlValidator := NewSQLValidator }

/-- State of `mgr0` after one `Close()`: the stop signal sits in the buffer. -/
def mgr1 : EnhancedDB := { mgr0 with stopPending := 1 }

/-- State of `mgr1` after a second `Close()`: the loop consumed the first
signal and exited, the second signal took the buffer slot. -/
def mgr2 : EnhancedDB := { mgr1 with loopAlive := false }

/-- Claim C9, counterexample: `Close()` has no guard against double
signalling — each of two consecutive `Close()` calls on a manager with the
reconnection loop running emits its own stop signal (two `signalStop`
events in total, not exactly one). -/
theorem c9_counterexample :
    EnhancedDB.Close mgr0 none =
      some (none, mgr1, [NetEvent.signalStop, NetEvent.stopTicker])
    ∧ EnhancedDB.Close mgr1 none =
      some (none, mgr2, [NetEvent.signalStop, NetEvent.stopTicker]) := by decide

/-- Claim C9, amended: `Close()` signals the reconnection loop once per call
(not once overall — the capacity-1 buffered channel absorbs the second
signal after the loop consumed the first), stops the timer, closes the
handle and marks the state disconnected; two consecutive `Close()` calls
both return (no deadlock), the second returns no error and leaves the state
disconnected with no handle. -/
theorem c9_amended_close_per_call (s : EnhancedDB) (c₁ c₂ : Option String)
    (h0 : s.stopPending = 0) (h1 : s.reconnectTicker = true → s.loopAlive = true)
    (hInv : s.connected = true → s.db = some ()) :
    ∃ r₁ s₁ t₁, EnhancedDB.Close s c₁ = some (r₁, s₁, t₁) ∧
      t₁.count NetEvent.signalStop = (if s.reconnectTicker then 1 else 0) ∧
      ∃ s₂ t₂, EnhancedDB.Close s₁ c₂ = some (none, s₂, t₂) ∧
        t₂.count NetEvent.signalStop = (if s.reconnectTicker then 1 else 0) ∧
        s₂.connected = false ∧ s₂.db = none := by
  cases htick : s.reconnectTicker with
  | false =>
    cases hdb : s.db with
    | none =>
      have hcf : s.connected = false := by
        cases hcc : s.connected with
        | false => rfl
        | true => rw [hInv hcc] at hdb; cases hdb
      refine ⟨none, s, [], ?_, by decide, s, [],
        ?_, by decide, hcf, hdb⟩
      · simp [EnhancedDB.Close, htick, hdb]
      · simp [EnhancedDB.Close, htick, hdb]
    | some u =>
      cases u
      refine ⟨c₁, { s with db := none, connected := false }, [NetEvent.closeHandle],
        ?_, by decide, { s with db := none, connected := false }, [],
        ?_, by decide, rfl, rfl⟩
      · simp [EnhancedDB.Close, htick, hdb]
      · simp [EnhancedDB.Close, htick]
  | true =>
    have hla : s.loopAlive = true := h1 htick
    cases hdb : s.db with
    | none =>
      have hcf : s.connected = false := by
        cases hcc : s.connected with
        | false => rfl
        | true => rw [hInv hcc] at hdb; cases hdb
      refine ⟨none, { s with stopPending := 1 },
        [NetEvent.signalStop, NetEvent.stopTicker], ?_, by decide,
        { s with stopPending := 1, loopAlive := false },
        [NetEvent.signalStop, NetEvent.stopTicker], ?_, by decide, hcf, hdb⟩
      · simp [EnhancedDB.Close, sendStop, htick, h0, hdb]
      · simp [EnhancedDB.Close, sendStop, htick, hla, hdb]
    | some u =>
      cases u
      refine ⟨c₁, { s with stopPending := 1, db := none, connected := false },
        [NetEvent.signalStop, NetEvent.stopTicker, NetEvent.closeHandle],
        ?_, by decide,
        { s with stopPending := 1, db := none, connected := false, loopAlive := false },
        [NetEvent.signalStop, NetEvent.stopTicker], ?_, by decide, rfl, rfl⟩
      · simp [EnhancedDB.Close, sendStop, htick, h0, hdb]
      · simp [EnhancedDB.Close, sendStop, htick, hla]

/-- Witness for the amended C9 theorem at the post-failed-construction
manager. -/
theorem c9_amended_witness :
    ∃ r₁ s₁ t₁, EnhancedDB.Close mgr0 none = some (r₁, s₁, t₁) ∧
      t₁.count NetEvent.signalStop = (if mgr0.reconnectTicker then 1 else 0) ∧
      ∃ s₂ t₂, EnhancedDB.Close s₁ none = some (none, s₂, t₂) ∧
        t₂.count NetEvent.signalStop = (if mgr0.reconnectTicker then 1 else 0) ∧
        s₂.connected = false ∧ s₂.db = none :=
  c9_amended_close_per_call mgr0 none none rfl (fun _ => rfl) (by decide)

/-- Connected-implies-handle invariant of the manager state. -/
def Inv (s : EnhancedDB) : Prop := s.connected = true → s.db = some ()

theorem executeQuery_state_eq (s : EnhancedDB) (q : String) (net : Except String SqlRows) :
    (ExecuteQuery s q net).2.1 = s := by
  cases hv : ValidateSQL s.sqlValidator q with
  | some err => simp [ExecuteQuery, hv]
  | none =>
    by_cases hc : IsConnected s = false
    · simp [ExecuteQuery, hv, hc]
    · cases hdb : s.db with
      | none => simp [ExecuteQuery, hv, hc, hdb]
      | some u => simp [ExecuteQuery, hv, hc, hdb]

/-- Claim C10: whenever the connected flag is true the handle is non-nil;
this invariant is established by construction and preserved by `connect`,
`HealthCheck`, `ExecuteQuery`, `Query` and `Close`, and under it the
"database connection is nil" branches of `HealthCheck` and `ExecuteQuery`
are unreachable while the manager reports connected (the functions take
exactly the ping/driver branch). -/
theorem c10_connected_handle_invariant :
    (∀ cfg co edb evs, NewEnhanced cfg co = (Except.ok edb, evs) → Inv edb)
    ∧ (∀ s co, Inv s → Inv (connect s co).2.1)
    ∧ (∀ s p, Inv s → Inv (HealthCheck s p).2.1)
    ∧ (∀ s q net, Inv s → Inv (ExecuteQuery s q net).2.1)
    ∧ (∀ s q net, Inv s → Inv (EnhancedDB.Query s q net).2.1)
    ∧ (∀ s c r s₂ t, Inv s → EnhancedDB.Close s c = some (r, s₂, t) → Inv s₂)
    ∧ (∀ s p, Inv s → IsConnected s = true →
        HealthCheck s p =
          (match p with
           | some e => (some ("database ping failed: " ++ e),
               { s with connected := false, lastError := some e }, [NetEvent.ping 5])
           | none => (none, s, [NetEvent.ping 5])))
    ∧ (∀ s q net, Inv s → IsConnected s = true → ValidateSQL s.sqlValidator q = none →
        ExecuteQuery s q net = (net, s, [NetEvent.runQuery q])) := by
  refine ⟨?_, ?_, ?_, ?_, ?_, ?_, ?_, ?_⟩
  · intro cfg co edb evs h
    unfold NewEnhanced at h
    by_cases hnil : validateConfigMissing cfg = []
    · rw [if_pos hnil] at h
      cases co <;>
        simp [connect, initialManager, startReconnectRoutine] at h <;>
        rcases h with ⟨h1, -⟩ <;> rw [← h1] <;> intro hcc <;> simp_all [Inv]
    · rw [if_neg hnil] at h
      simp at h
  · intro s co hI
    cases co <;> simp [connect, Inv]
  · intro s p hI
    by_cases hc : IsConnected s = false
    · simp [HealthCheck, hc]
      exact hI
    · have hct : s.connected = true := by
        cases hcc : s.connected with
        | true => rfl
        | false => exact absurd (by simp [IsConnected, hcc]) hc
      have hdb := hI hct
      cases p <;> simp [HealthCheck, hc, hdb, Inv]
  · intro s q net hI
    rw [executeQuery_state_eq]
    exact hI
  · intro s q net hI
    unfold EnhancedDB.Query
    rcases he : ExecuteQuery s q net with ⟨r, s1, evs⟩
    have hs1 : s1 = s := by
      have := executeQuery_state_eq s q net
      rw [he] at this
      exact this
    cases r <;> simp <;> rw [hs1] <;> exact hI
  · intro s c r s₂ t hI h
    unfold EnhancedDB.Close sendStop at h
    by_cases htick : s.reconnectTicker = true
    · rw [if_pos htick] at h
      by_cases h0 : s.stopPending = 0
      · rw [if_pos h0] at h
        cases hdb : s.db with
        | none =>
          simp only [hdb] at h
          rcases h with ⟨-, h2, -⟩
          intro hcc
          rw [hI hcc] at hdb
          cases hdb
        | some u =>
          simp only [hdb] at h
          rcases h with ⟨-, h2, -⟩
          intro hcc
          cases hcc
      · rw [if_neg h0] at h
        by_cases hla : s.loopAlive = true
        · rw [if_pos hla] at h
          cases hdb : s.db with
          | none =>
            simp only [hdb] at h
            rcases h with ⟨-, h2, -⟩
            intro hcc
            rw [hI hcc] at hdb
            cases hdb
          | some u =>
            simp only [hdb] at h
            rcases h with ⟨-, h2, -⟩
            intro hcc
            cases hcc
        · rw [if_neg hla] at h
          cases h
    · rw [if_neg htick] at h
      cases hdb : s.db with
      | none =>
        simp only [hdb] at h
        rcases h with ⟨-, h2, -⟩
        intro hcc
        rw [hI hcc] at hdb
        cases hdb
      | some u =>
        simp only [hdb] at h
        rcases h with ⟨-, h2, -⟩
        intro hcc
        cases hcc
  · intro s p hI hc
    have hni : ¬ (IsConnected s = false) := by rw [hc]; simp
    have hct : s.connected = true := hc
    have hdb := hI hct
    unfold HealthCheck
    rw [if_neg hni, hdb]
  · intro s q net hI hc hv
    have hni : ¬ (IsConnected s = false) := by rw [hc]; simp
    have hdb := hI hc
    unfold ExecuteQuery
    rw [hv]
    rw [if_neg hni, hdb]

/-- Witness for C10 at the sample connected manager. -/
theorem c10_witness :
    Inv (HealthCheck sampleDB none).2.1
    ∧ ExecuteQuery sampleDB "SHOW TABLES" (Except.ok { columns := ["x"], rows := [] }) =
        (Except.ok { columns := ["x"], rows := [] }, sampleDB,
         [NetEvent.runQuery "SHOW TABLES"]) :=
  ⟨c10_connected_handle_invariant.2.2.1 sampleDB none (fun _ => rfl),
   c10_connected_handle_invariant.2.2.2.2.2.2.2 sampleDB "SHOW TABLES"
     (Except.ok { columns := ["x"], rows := [] }) (fun _ => rfl) rfl (by decide)⟩

end DevMcp
